import Mathlib

/-!
Verification of the open-actuator protocol client.

Shallow embedding of the serial protocol client of the `open_actuator`
package: the Q8.8 fixed-point codec, the `USBInterface` request/response
operations (`src/open_actuator/interface.py`), the `ACBv2` device-state
facade (`src/open_actuator/actuators/ACBv2.py`) and the legacy
`ActuatorInterface` client (`src/open_actuator/actuator_interface.py`).

Modelling conventions:
* Python floats are modelled as rationals (`ℚ`); all arithmetic the code
  performs on them (clamping, scaling by 256, truncation, division by 256,
  decimal-literal parsing) is exact on the values exercised here.
* The serial device is an oracle (`Board`): a function from the written
  request to the bytes/line the subsequent read would yield, with `none`
  standing for a raised `serial.SerialException`/`UnicodeDecodeError`.
* Each operation returns its Python result together with the list of
  writes it performed on the transport, so that "no I/O happened" claims
  are statements about the model.
* An uncaught Python exception (e.g. `struct.error` escaping a public
  method) is the `POut.exn` outcome.
-/

/-- Outcome of a Python call: a returned value, or an uncaught exception
escaping the call. -/
inductive POut (α : Type)
  | ok (a : α)
  | exn
deriving DecidableEq, Repr

/-- Model of `CommandMode` enum from `interface.py` (also present, identically, in
`actuator_interface.py`). -/
inductive CommandMode
  | HUMAN_READABLE
  | HIGH_SPEED_BINARY
  | SIMPLEFOC
deriving DecidableEq, Repr

/-- The `IntEnum` value of a `CommandMode`. -/
def CommandMode.value : CommandMode → ℕ
  | .HUMAN_READABLE => 1
  | .HIGH_SPEED_BINARY => 2
  | .SIMPLEFOC => 3

namespace CommandID

/-! `CommandID` enum from `interface.py`. -/

def SET_POSITION : ℕ := 0x01
def SET_VELOCITY : ℕ := 0x02
def SET_TORQUE : ℕ := 0x03
def GET_POSITION : ℕ := 0x04
def GET_VELOCITY : ℕ := 0x05
def GET_TORQUE : ℕ := 0x06
def ENABLE : ℕ := 0x07
def DISABLE : ℕ := 0x08
def HOME : ℕ := 0x09
def STOP : ℕ := 0x0A
def RESET_POSITION : ℕ := 0x0B
def GET_CURRENT_A : ℕ := 0x0C
def GET_CURRENT_B : ℕ := 0x0D
def GET_CURRENT_C : ℕ := 0x0E
def CMD_MODE : ℕ := 0xAB
def BROADCAST : ℕ := 0xAC

end CommandID

/-- A write performed on the serial transport: either a human-readable
line (`write((command + "\n").encode())`) or a binary packet. -/
inductive Write
  | human (command : String)
  | binary (packet : List ℕ)
deriving DecidableEq, Repr

/-- Oracle for the serial device on the other end of the transport.
`humanReply c` is the raw line `readline()` would yield after line `c` was
written (`none` models a raised `SerialException`/`UnicodeDecodeError`);
`binaryReply p` is the byte stream available to `read` after packet `p`
was written (`none` models a raised `SerialException`).
`f32` abstractly stands for the IEEE-754 binary32 big-endian decoding used
by the phase-current getters; the branch using it is unreachable (at most
one reply byte is ever read), so the decoder is left as an uninterpreted
parameter of the environment rather than modelled bit-by-bit. -/
structure Board where
  humanReply : String → Option String
  binaryReply : List ℕ → Option (List ℕ)
  f32 : List ℕ → ℚ

/-- The connection-relevant instance state of a client
(`self.connected`, `self.serial_conn is not None`, `self.command_mode`). -/
structure IfaceState where
  connected : Bool
  serialConn : Bool
  command_mode : CommandMode
deriving DecidableEq, Repr

namespace Py

/-! Models of the Python built-ins the client applies to reply strings.
They are written over `List Char` by structural recursion (with `String`
wrappers) so that they compute. -/

/-- Numeric value of a list of decimal digit characters. -/
def digitsVal (cs : List Char) : ℕ :=
  cs.foldl (fun a c => a * 10 + (c.toNat - 48)) 0

/-- Whitespace trimming on both ends of a character list. -/
def trimChars (cs : List Char) : List Char :=
  ((cs.dropWhile fun c => c.isWhitespace).reverse.dropWhile
    fun c => c.isWhitespace).reverse

/-- Python `s.strip()`: remove surrounding whitespace. -/
def pyStrip (s : String) : String :=
  String.mk (trimChars s.toList)

/-- Whether `pre` is an initial segment of `cs`. -/
def listStartsWith : List Char → List Char → Bool
  | [], _ => true
  | _ :: _, [] => false
  | p :: pt, c :: ct => p = c && listStartsWith pt ct

/-- Python `s.startswith(pre)`. -/
def pyStartsWith (s pre : String) : Bool :=
  listStartsWith pre.toList s.toList

/-- The characters after the first space, i.e. `s.split(" ", 1)[1]`
(only used by the client after a `startswith` check that guarantees a
space is present). -/
def afterFirstSpace : List Char → List Char
  | [] => []
  | c :: t => if c = ' ' then t else afterFirstSpace t

/-- Python `s.split(" ", 1)[1]` on a string known to contain a space. -/
def splitOnceRest (s : String) : String :=
  String.mk (afterFirstSpace s.toList)

/-- Worker for whitespace splitting; `acc` is the current token, reversed. -/
def splitWsGo : List Char → List Char → List (List Char)
  | [], acc => if acc = [] then [] else [acc.reverse]
  | c :: t, acc =>
    if c.isWhitespace then
      if acc = [] then splitWsGo t [] else acc.reverse :: splitWsGo t []
    else
      splitWsGo t (c :: acc)

/-- Python `s.split()`: split on whitespace runs, discarding empty pieces. -/
def pySplit (s : String) : List String :=
  (splitWsGo s.toList []).map String.mk

/-- Sign prefix of a numeric literal: the sign and the remaining input. -/
def signSplit (cs : List Char) : ℤ × List Char :=
  match cs with
  | [] => (1, [])
  | c :: t =>
    if c = '-' then (-1, t)
    else if c = '+' then (1, t)
    else (1, c :: t)

/-- Exponent suffix of a Python float literal: accepts the empty rest, or
`e`/`E` followed by an optionally signed digit string that must consume
the remainder. Returns the exponent. -/
def parseExpPart (cs : List Char) : Option ℤ :=
  match cs with
  | [] => some 0
  | c :: rest =>
    if c = 'e' ∨ c = 'E' then
      let sd := signSplit rest
      if sd.2 ≠ [] ∧ sd.2.all (fun d => d.isDigit) then
        some (sd.1 * (digitsVal sd.2 : ℤ))
      else
        none
    else none

/-- The fields of a parsed Python float literal: sign, integer part,
fraction digits (value and count), exponent. Kept in `ℤ`/`ℕ` so that
parsing is separate from the (rational) value it denotes. -/
structure FloatLit where
  sign : ℤ
  ipart : ℕ
  fracVal : ℕ
  fracLen : ℕ
  exp : ℤ
deriving DecidableEq, Repr

/-- Mantissa of a Python float literal: digits, optionally with a decimal
point; at least one digit overall. Returns integer part, fraction value,
fraction length and the rest of the input. -/
def parseMantissa (cs : List Char) : Option (ℕ × ℕ × ℕ × List Char) :=
  let ip := cs.takeWhile fun c => c.isDigit
  let r1 := cs.dropWhile fun c => c.isDigit
  match r1 with
  | '.' :: r2 =>
    let fp := r2.takeWhile fun c => c.isDigit
    let r3 := r2.dropWhile fun c => c.isDigit
    if ip.isEmpty ∧ fp.isEmpty then none
    else some (digitsVal ip, digitsVal fp, fp.length, r3)
  | _ => if ip.isEmpty then none else some (digitsVal ip, 0, 0, r1)

/-- Parse a Python float literal: optional surrounding whitespace, optional
sign, digits with optional fraction and exponent. -/
def pyFloatParse? (s : String) : Option FloatLit :=
  let sc := signSplit (trimChars s.toList)
  match parseMantissa sc.2 with
  | none => none
  | some (ip, fv, fl, rest) =>
    match parseExpPart rest with
    | none => none
    | some e => some ⟨sc.1, ip, fv, fl, e⟩

/-- The rational value denoted by a parsed float literal. -/
def floatVal (f : FloatLit) : ℚ :=
  (f.sign : ℚ) * ((f.ipart : ℚ) + (f.fracVal : ℚ) / (10 : ℚ) ^ f.fracLen) *
    (10 : ℚ) ^ f.exp

/-- Python `float(s)` on decimal literals; `none` models a raised
`ValueError`. (The `inf`/`nan`/underscore forms Python also accepts are
not exercised by any reply this development considers.) -/
def pyFloat? (s : String) : Option ℚ :=
  (pyFloatParse? s).map floatVal

/-- Python `int(s)` on decimal literals: optional surrounding whitespace,
optional sign, digits only; `none` models a raised `ValueError`. -/
def pyInt? (s : String) : Option ℤ :=
  let sc := signSplit (trimChars s.toList)
  if sc.2 ≠ [] ∧ sc.2.all (fun d => d.isDigit) then
    some (sc.1 * (digitsVal sc.2 : ℤ))
  else
    none

/-- Stand-in for Python's decimal rendering of a float interpolated into a
command f-string. No claim observes the exact rendering of an argument
(the board oracle is quantified over, or constant, wherever this appears),
so a canonical exact rendering of the rational is used. -/
def pyFloatRepr (q : ℚ) : String :=
  toString q.num ++ "/" ++ toString q.den

end Py

/-- Python `int(x)` on a float: truncation toward zero. -/
def truncQ (q : ℚ) : ℤ :=
  if 0 ≤ q then ⌊q⌋ else ⌈q⌉

/-- Model of `struct.pack('>h', x)`: two's-complement big-endian 16-bit encoding;
`none` models the `struct.error` raised when `x` is outside the signed
16-bit range. -/
def packh (x : ℤ) : Option (List ℕ) :=
  if -32768 ≤ x ∧ x ≤ 32767 then
    some [((x.emod 65536).ediv 256).toNat, ((x.emod 65536).emod 256).toNat]
  else
    none

/-- Model of `struct.unpack('>h', bytes)[0]`: big-endian signed 16-bit decoding of
two bytes. -/
def unpack_h_be (b0 b1 : ℕ) : ℤ :=
  let u : ℤ := (b0 % 256 : ℕ) * 256 + (b1 % 256 : ℕ)
  if 32768 ≤ u then u - 65536 else u

namespace USBInterface

/-! Embedding of `USBInterface` (`src/open_actuator/interface.py`).
Each operation takes the instance state and the board oracle and returns
its Python result paired with the list of transport writes it performed.
Only `set_command_mode` mutates the instance state; it additionally
returns the updated state. -/

/-- Model of `_float_to_q88`: clamp to `[-128.0, 127.996]`, scale by 256, truncate
toward zero (`int(...)`), mask with `0xFFFF` (for a Python int, `& 0xFFFF`
is reduction mod 2^16). -/
def float_to_q88 (value : ℚ) : ℤ :=
  let clamped := max (-128) (min (127996 / 1000) value)
  truncQ (clamped * 256) % 65536

/-- Model of `_q88_to_float`: if bit 15 of `value` is set (for a Python int,
`value & 0x8000` is nonzero iff `value mod 2^16 ≥ 2^15`), subtract
`0x10000`; divide by 256.0. -/
def q88_to_float (value : ℤ) : ℚ :=
  let signed := if 32768 ≤ value % 65536 then value - 65536 else value
  (signed : ℚ) / 256

/-- Model of `_send_human_command`: fail with `None` when not connected; otherwise
write the command line and return `readline().decode().strip()`
(`none` from the oracle models a raised exception, caught and turned
into `None`). -/
def sendHumanCommand (st : IfaceState) (board : Board) (command : String) :
    Option String × List Write :=
  if st.connected && st.serialConn then
    match board.humanReply command with
    | some raw => (some (Py.pyStrip raw), [Write.human command])
    | none => (none, [Write.human command])
  else
    (none, [])

/-- Model of `_send_binary_command`: fail with `None` when not connected; otherwise
write `pack('B', command_id) + data` and return `read(1)` — at most one
byte of whatever the board made available. -/
def sendBinaryCommand (st : IfaceState) (board : Board) (command_id : ℕ)
    (data : List ℕ) : Option (List ℕ) × List Write :=
  if st.connected && st.serialConn then
    match board.binaryReply (command_id :: data) with
    | some avail => (some (avail.take 1), [Write.binary (command_id :: data)])
    | none => (none, [Write.binary (command_id :: data)])
  else
    (none, [])

/-- Model of `send_command`: delegates to `_send_human_command` in every mode. -/
def send_command (st : IfaceState) (board : Board) (command : String) :
    Option String × List Write :=
  sendHumanCommand st board command

/-- Model of `get_position`. -/
def get_position (st : IfaceState) (board : Board) : Option ℚ × List Write :=
  match st.command_mode with
  | CommandMode.HUMAN_READABLE =>
    let pr := sendHumanCommand st board "get_position"
    match pr.1 with
    | some r =>
      if r ≠ "" then
        if Py.pyStartsWith r "get_position " then
          (Py.pyFloat? (Py.splitOnceRest r), pr.2)
        else
          (Py.pyFloat? r, pr.2)
      else (none, pr.2)
    | none => (none, pr.2)
  | _ =>
    let pr := sendBinaryCommand st board CommandID.GET_POSITION []
    match pr.1 with
    | some bytes =>
      if bytes ≠ [] ∧ 2 ≤ bytes.length then
        (some (q88_to_float (unpack_h_be (bytes.headD 0) ((bytes.drop 1).headD 0))), pr.2)
      else (none, pr.2)
    | none => (none, pr.2)

/-- Model of `get_velocity`. -/
def get_velocity (st : IfaceState) (board : Board) : Option ℚ × List Write :=
  match st.command_mode with
  | CommandMode.HUMAN_READABLE =>
    let pr := sendHumanCommand st board "get_velocity"
    match pr.1 with
    | some r =>
      if r ≠ "" then
        if Py.pyStartsWith r "get_velocity " then
          (Py.pyFloat? (Py.splitOnceRest r), pr.2)
        else
          (Py.pyFloat? r, pr.2)
      else (none, pr.2)
    | none => (none, pr.2)
  | _ =>
    let pr := sendBinaryCommand st board CommandID.GET_VELOCITY []
    match pr.1 with
    | some bytes =>
      if bytes ≠ [] ∧ 2 ≤ bytes.length then
        (some (q88_to_float (unpack_h_be (bytes.headD 0) ((bytes.drop 1).headD 0))), pr.2)
      else (none, pr.2)
    | none => (none, pr.2)

/-- Model of `get_torque`. -/
def get_torque (st : IfaceState) (board : Board) : Option ℚ × List Write :=
  match st.command_mode with
  | CommandMode.HUMAN_READABLE =>
    let pr := sendHumanCommand st board "get_torque"
    match pr.1 with
    | some r =>
      if r ≠ "" then
        if Py.pyStartsWith r "get_torque " then
          (Py.pyFloat? (Py.splitOnceRest r), pr.2)
        else
          (Py.pyFloat? r, pr.2)
      else (none, pr.2)
    | none => (none, pr.2)
  | _ =>
    let pr := sendBinaryCommand st board CommandID.GET_TORQUE []
    match pr.1 with
    | some bytes =>
      if bytes ≠ [] ∧ 2 ≤ bytes.length then
        (some (q88_to_float (unpack_h_be (bytes.headD 0) ((bytes.drop 1).headD 0))), pr.2)
      else (none, pr.2)
    | none => (none, pr.2)

/-- Model of `set_position`. In binary mode the payload is built by
`struct.pack('>h', self._float_to_q88(position))` before any connection
check; a `struct.error` there (sign bit set in the q8.8 word) escapes the
method uncaught. -/
def set_position (st : IfaceState) (board : Board) (position : ℚ) :
    POut Bool × List Write :=
  match st.command_mode with
  | CommandMode.HUMAN_READABLE =>
    let pr := sendHumanCommand st board ("set_position " ++ Py.pyFloatRepr position)
    match pr.1 with
    | some r =>
      if r ≠ "" ∧ Py.pyStartsWith r "set_position " then
        match Py.pyFloat? (Py.splitOnceRest r) with
        | some _ => (POut.ok true, pr.2)
        | none => (POut.ok false, pr.2)
      else
        (POut.ok true, pr.2)
    | none => (POut.ok false, pr.2)
  | _ =>
    match packh (float_to_q88 position) with
    | some data =>
      let pr := sendBinaryCommand st board CommandID.SET_POSITION data
      (POut.ok pr.1.isSome, pr.2)
    | none => (POut.exn, [])

/-- Model of `set_velocity`. Same shape as `set_position`. -/
def set_velocity (st : IfaceState) (board : Board) (velocity : ℚ) :
    POut Bool × List Write :=
  match st.command_mode with
  | CommandMode.HUMAN_READABLE =>
    let pr := sendHumanCommand st board ("set_velocity " ++ Py.pyFloatRepr velocity)
    match pr.1 with
    | some r =>
      if r ≠ "" ∧ Py.pyStartsWith r "set_velocity " then
        match Py.pyFloat? (Py.splitOnceRest r) with
        | some _ => (POut.ok true, pr.2)
        | none => (POut.ok false, pr.2)
      else
        (POut.ok true, pr.2)
    | none => (POut.ok false, pr.2)
  | _ =>
    match packh (float_to_q88 velocity) with
    | some data =>
      let pr := sendBinaryCommand st board CommandID.SET_VELOCITY data
      (POut.ok pr.1.isSome, pr.2)
    | none => (POut.exn, [])

/-- Model of `set_torque`. Same shape as `set_position`. -/
def set_torque (st : IfaceState) (board : Board) (torque : ℚ) :
    POut Bool × List Write :=
  match st.command_mode with
  | CommandMode.HUMAN_READABLE =>
    let pr := sendHumanCommand st board ("set_torque " ++ Py.pyFloatRepr torque)
    match pr.1 with
    | some r =>
      if r ≠ "" ∧ Py.pyStartsWith r "set_torque " then
        match Py.pyFloat? (Py.splitOnceRest r) with
        | some _ => (POut.ok true, pr.2)
        | none => (POut.ok false, pr.2)
      else
        (POut.ok true, pr.2)
    | none => (POut.ok false, pr.2)
  | _ =>
    match packh (float_to_q88 torque) with
    | some data =>
      let pr := sendBinaryCommand st board CommandID.SET_TORQUE data
      (POut.ok pr.1.isSome, pr.2)
    | none => (POut.exn, [])

/-- Model of `enable`: in human mode success iff the reply equals `"enable"`. -/
def enable (st : IfaceState) (board : Board) : Bool × List Write :=
  match st.command_mode with
  | CommandMode.HUMAN_READABLE =>
    let pr := sendHumanCommand st board "enable"
    (pr.1 = some "enable", pr.2)
  | _ =>
    let pr := sendBinaryCommand st board CommandID.ENABLE []
    (pr.1.isSome, pr.2)

/-- Model of `disable`: in human mode success iff the reply equals `"disable"`. -/
def disable (st : IfaceState) (board : Board) : Bool × List Write :=
  match st.command_mode with
  | CommandMode.HUMAN_READABLE =>
    let pr := sendHumanCommand st board "disable"
    (pr.1 = some "disable", pr.2)
  | _ =>
    let pr := sendBinaryCommand st board CommandID.DISABLE []
    (pr.1.isSome, pr.2)

/-- Model of `home`: success iff the exchange returned a non-`None` reply. -/
def home (st : IfaceState) (board : Board) : Bool × List Write :=
  match st.command_mode with
  | CommandMode.HUMAN_READABLE =>
    let pr := sendHumanCommand st board "home"
    (pr.1.isSome, pr.2)
  | _ =>
    let pr := sendBinaryCommand st board CommandID.HOME []
    (pr.1.isSome, pr.2)

/-- Model of `stop`: success iff the exchange returned a non-`None` reply. -/
def stop (st : IfaceState) (board : Board) : Bool × List Write :=
  match st.command_mode with
  | CommandMode.HUMAN_READABLE =>
    let pr := sendHumanCommand st board "stop"
    (pr.1.isSome, pr.2)
  | _ =>
    let pr := sendBinaryCommand st board CommandID.STOP []
    (pr.1.isSome, pr.2)

/-- Model of `reset_position`: in human mode success iff the reply equals
`"reset_position"`. -/
def reset_position (st : IfaceState) (board : Board) : Bool × List Write :=
  match st.command_mode with
  | CommandMode.HUMAN_READABLE =>
    let pr := sendHumanCommand st board "reset_position"
    (pr.1 = some "reset_position", pr.2)
  | _ =>
    let pr := sendBinaryCommand st board CommandID.RESET_POSITION []
    (pr.1.isSome, pr.2)

/-- Model of `set_command_mode`: send `cmd_mode <n>` via the currently active
encoding; update `self.command_mode` exactly when the exchange returned a
non-`None` reply. -/
def set_command_mode (st : IfaceState) (board : Board) (mode : CommandMode) :
    (POut Bool × IfaceState) × List Write :=
  match st.command_mode with
  | CommandMode.HUMAN_READABLE =>
    let pr := sendHumanCommand st board ("cmd_mode " ++ toString mode.value)
    if pr.1.isSome then
      ((POut.ok true, { st with command_mode := mode }), pr.2)
    else
      ((POut.ok false, st), pr.2)
  | _ =>
    match packh (mode.value : ℤ) with
    | some data =>
      let pr := sendBinaryCommand st board CommandID.CMD_MODE data
      if pr.1.isSome then
        ((POut.ok true, { st with command_mode := mode }), pr.2)
      else
        ((POut.ok false, st), pr.2)
    | none => ((POut.exn, st), [])

/-- Model of `get_velocity_pid`: human mode parses `get_velocity_pid P I D`;
binary mode is unimplemented and returns `None` at once. -/
def get_velocity_pid (st : IfaceState) (board : Board) :
    Option (ℚ × ℚ × ℚ) × List Write :=
  match st.command_mode with
  | CommandMode.HUMAN_READABLE =>
    let pr := sendHumanCommand st board "get_velocity_pid"
    match pr.1 with
    | some r =>
      if r ≠ "" ∧ Py.pyStartsWith r "get_velocity_pid " then
        let parts := Py.pySplit r
        if 4 ≤ parts.length then
          match Py.pyFloat? (parts.getD 1 ""), Py.pyFloat? (parts.getD 2 ""),
              Py.pyFloat? (parts.getD 3 "") with
          | some p, some i, some d => (some (p, i, d), pr.2)
          | _, _, _ => (none, pr.2)
        else (none, pr.2)
      else (none, pr.2)
    | none => (none, pr.2)
  | _ => (none, [])

/-- Model of `set_velocity_pid`: human mode parses the echo to verify; a reply
that does not match the echo pattern still yields `response is not None`.
Binary mode is unimplemented and returns `False` at once. -/
def set_velocity_pid (st : IfaceState) (board : Board) (p i d : ℚ) :
    Bool × List Write :=
  match st.command_mode with
  | CommandMode.HUMAN_READABLE =>
    let pr := sendHumanCommand st board
      ("set_velocity_pid " ++ Py.pyFloatRepr p ++ " " ++ Py.pyFloatRepr i ++ " "
        ++ Py.pyFloatRepr d)
    match pr.1 with
    | some r =>
      if r ≠ "" ∧ Py.pyStartsWith r "set_velocity_pid " then
        let parts := Py.pySplit r
        if 4 ≤ parts.length then
          match Py.pyFloat? (parts.getD 1 ""), Py.pyFloat? (parts.getD 2 ""),
              Py.pyFloat? (parts.getD 3 "") with
          | some _, some _, some _ => (true, pr.2)
          | _, _, _ => (false, pr.2)
        else (true, pr.2)
      else (true, pr.2)
    | none => (false, pr.2)
  | _ => (false, [])

/-- Model of `get_angle_pid`. Same shape as `get_velocity_pid`. -/
def get_angle_pid (st : IfaceState) (board : Board) :
    Option (ℚ × ℚ × ℚ) × List Write :=
  match st.command_mode with
  | CommandMode.HUMAN_READABLE =>
    let pr := sendHumanCommand st board "get_angle_pid"
    match pr.1 with
    | some r =>
      if r ≠ "" ∧ Py.pyStartsWith r "get_angle_pid " then
        let parts := Py.pySplit r
        if 4 ≤ parts.length then
          match Py.pyFloat? (parts.getD 1 ""), Py.pyFloat? (parts.getD 2 ""),
              Py.pyFloat? (parts.getD 3 "") with
          | some p, some i, some d => (some (p, i, d), pr.2)
          | _, _, _ => (none, pr.2)
        else (none, pr.2)
      else (none, pr.2)
    | none => (none, pr.2)
  | _ => (none, [])

/-- Model of `set_angle_pid`. Same shape as `set_velocity_pid`. -/
def set_angle_pid (st : IfaceState) (board : Board) (p i d : ℚ) :
    Bool × List Write :=
  match st.command_mode with
  | CommandMode.HUMAN_READABLE =>
    let pr := sendHumanCommand st board
      ("set_angle_pid " ++ Py.pyFloatRepr p ++ " " ++ Py.pyFloatRepr i ++ " "
        ++ Py.pyFloatRepr d)
    match pr.1 with
    | some r =>
      if r ≠ "" ∧ Py.pyStartsWith r "set_angle_pid " then
        let parts := Py.pySplit r
        if 4 ≤ parts.length then
          match Py.pyFloat? (parts.getD 1 ""), Py.pyFloat? (parts.getD 2 ""),
              Py.pyFloat? (parts.getD 3 "") with
          | some _, some _, some _ => (true, pr.2)
          | _, _, _ => (false, pr.2)
        else (true, pr.2)
      else (true, pr.2)
    | none => (false, pr.2)
  | _ => (false, [])

/-- Model of `get_current_pid`. Same shape as `get_velocity_pid`. -/
def get_current_pid (st : IfaceState) (board : Board) :
    Option (ℚ × ℚ × ℚ) × List Write :=
  match st.command_mode with
  | CommandMode.HUMAN_READABLE =>
    let pr := sendHumanCommand st board "get_current_pid"
    match pr.1 with
    | some r =>
      if r ≠ "" ∧ Py.pyStartsWith r "get_current_pid " then
        let parts := Py.pySplit r
        if 4 ≤ parts.length then
          match Py.pyFloat? (parts.getD 1 ""), Py.pyFloat? (parts.getD 2 ""),
              Py.pyFloat? (parts.getD 3 "") with
          | some p, some i, some d => (some (p, i, d), pr.2)
          | _, _, _ => (none, pr.2)
        else (none, pr.2)
      else (none, pr.2)
    | none => (none, pr.2)
  | _ => (none, [])

/-- Model of `set_current_pid`. Same shape as `set_velocity_pid`. -/
def set_current_pid (st : IfaceState) (board : Board) (p i d : ℚ) :
    Bool × List Write :=
  match st.command_mode with
  | CommandMode.HUMAN_READABLE =>
    let pr := sendHumanCommand st board
      ("set_current_pid " ++ Py.pyFloatRepr p ++ " " ++ Py.pyFloatRepr i ++ " "
        ++ Py.pyFloatRepr d)
    match pr.1 with
    | some r =>
      if r ≠ "" ∧ Py.pyStartsWith r "set_current_pid " then
        let parts := Py.pySplit r
        if 4 ≤ parts.length then
          match Py.pyFloat? (parts.getD 1 ""), Py.pyFloat? (parts.getD 2 ""),
              Py.pyFloat? (parts.getD 3 "") with
          | some _, some _, some _ => (true, pr.2)
          | _, _, _ => (false, pr.2)
        else (true, pr.2)
      else (true, pr.2)
    | none => (false, pr.2)
  | _ => (false, [])

/-- Model of `save_config`: human mode success iff the reply equals `"save_config"`;
binary mode is unimplemented and returns `False` at once. -/
def save_config (st : IfaceState) (board : Board) : Bool × List Write :=
  match st.command_mode with
  | CommandMode.HUMAN_READABLE =>
    let pr := sendHumanCommand st board "save_config"
    (pr.1 = some "save_config", pr.2)
  | _ => (false, [])

/-- Model of `get_downsample`: binary mode is unimplemented and returns `None` at
once. -/
def get_downsample (st : IfaceState) (board : Board) : Option ℤ × List Write :=
  match st.command_mode with
  | CommandMode.HUMAN_READABLE =>
    let pr := sendHumanCommand st board "get_downsample"
    match pr.1 with
    | some r =>
      if r ≠ "" ∧ Py.pyStartsWith r "get_downsample " then
        (Py.pyInt? (Py.splitOnceRest r), pr.2)
      else (none, pr.2)
    | none => (none, pr.2)
  | _ => (none, [])

/-- Model of `set_downsample`: binary mode is unimplemented and returns `False` at
once. -/
def set_downsample (st : IfaceState) (board : Board) (downsample : ℤ) :
    Bool × List Write :=
  match st.command_mode with
  | CommandMode.HUMAN_READABLE =>
    let pr := sendHumanCommand st board ("set_downsample " ++ toString downsample)
    match pr.1 with
    | some r =>
      if r ≠ "" ∧ Py.pyStartsWith r "set_downsample " then
        match Py.pyInt? (Py.splitOnceRest r) with
        | some _ => (true, pr.2)
        | none => (false, pr.2)
      else (true, pr.2)
    | none => (false, pr.2)
  | _ => (false, [])

/-- Model of `get_temperature`: binary mode is unimplemented and returns `None`. -/
def get_temperature (st : IfaceState) (board : Board) : Option ℚ × List Write :=
  match st.command_mode with
  | CommandMode.HUMAN_READABLE =>
    let pr := sendHumanCommand st board "get_temperature"
    match pr.1 with
    | some r =>
      if r ≠ "" ∧ Py.pyStartsWith r "get_temperature " then
        (Py.pyFloat? (Py.splitOnceRest r), pr.2)
      else (none, pr.2)
    | none => (none, pr.2)
  | _ => (none, [])

/-- Model of `get_bus_voltage`: binary mode is unimplemented and returns `None`. -/
def get_bus_voltage (st : IfaceState) (board : Board) : Option ℚ × List Write :=
  match st.command_mode with
  | CommandMode.HUMAN_READABLE =>
    let pr := sendHumanCommand st board "get_bus_voltage"
    match pr.1 with
    | some r =>
      if r ≠ "" ∧ Py.pyStartsWith r "get_bus_voltage " then
        (Py.pyFloat? (Py.splitOnceRest r), pr.2)
      else (none, pr.2)
    | none => (none, pr.2)
  | _ => (none, [])

/-- Model of `get_internal_temperature`: binary mode is unimplemented and returns
`None`. -/
def get_internal_temperature (st : IfaceState) (board : Board) :
    Option ℚ × List Write :=
  match st.command_mode with
  | CommandMode.HUMAN_READABLE =>
    let pr := sendHumanCommand st board "get_internal_temperature"
    match pr.1 with
    | some r =>
      if r ≠ "" ∧ Py.pyStartsWith r "get_internal_temperature " then
        (Py.pyFloat? (Py.splitOnceRest r), pr.2)
      else (none, pr.2)
    | none => (none, pr.2)
  | _ => (none, [])

/-- Model of `get_current_a`: binary branch expects a 4-byte IEEE float but at most
one byte is ever read, so it cannot succeed. -/
def get_current_a (st : IfaceState) (board : Board) : Option ℚ × List Write :=
  match st.command_mode with
  | CommandMode.HUMAN_READABLE =>
    let pr := sendHumanCommand st board "get_current_a"
    match pr.1 with
    | some r =>
      if r ≠ "" ∧ Py.pyStartsWith r "get_current_a " then
        (Py.pyFloat? (Py.splitOnceRest r), pr.2)
      else (none, pr.2)
    | none => (none, pr.2)
  | _ =>
    let pr := sendBinaryCommand st board CommandID.GET_CURRENT_A []
    match pr.1 with
    | some bytes =>
      if bytes ≠ [] ∧ 4 ≤ bytes.length then
        (some (board.f32 (bytes.take 4)), pr.2)
      else (none, pr.2)
    | none => (none, pr.2)

/-- Model of `get_current_b`. Same shape as `get_current_a`. -/
def get_current_b (st : IfaceState) (board : Board) : Option ℚ × List Write :=
  match st.command_mode with
  | CommandMode.HUMAN_READABLE =>
    let pr := sendHumanCommand st board "get_current_b"
    match pr.1 with
    | some r =>
      if r ≠ "" ∧ Py.pyStartsWith r "get_current_b " then
        (Py.pyFloat? (Py.splitOnceRest r), pr.2)
      else (none, pr.2)
    | none => (none, pr.2)
  | _ =>
    let pr := sendBinaryCommand st board CommandID.GET_CURRENT_B []
    match pr.1 with
    | some bytes =>
      if bytes ≠ [] ∧ 4 ≤ bytes.length then
        (some (board.f32 (bytes.take 4)), pr.2)
      else (none, pr.2)
    | none => (none, pr.2)

/-- Model of `get_current_c`. Same shape as `get_current_a`. -/
def get_current_c (st : IfaceState) (board : Board) : Option ℚ × List Write :=
  match st.command_mode with
  | CommandMode.HUMAN_READABLE =>
    let pr := sendHumanCommand st board "get_current_c"
    match pr.1 with
    | some r =>
      if r ≠ "" ∧ Py.pyStartsWith r "get_current_c " then
        (Py.pyFloat? (Py.splitOnceRest r), pr.2)
      else (none, pr.2)
    | none => (none, pr.2)
  | _ =>
    let pr := sendBinaryCommand st board CommandID.GET_CURRENT_C []
    match pr.1 with
    | some bytes =>
      if bytes ≠ [] ∧ 4 ≤ bytes.length then
        (some (board.f32 (bytes.take 4)), pr.2)
      else (none, pr.2)
    | none => (none, pr.2)

/-- Model of `recalibrate_sensors`: human mode success iff the reply was not
`None`; binary mode is unimplemented and returns `False` at once. -/
def recalibrate_sensors (st : IfaceState) (board : Board) : Bool × List Write :=
  match st.command_mode with
  | CommandMode.HUMAN_READABLE =>
    let pr := sendHumanCommand st board "recalibrate_sensors"
    (pr.1.isSome, pr.2)
  | _ => (false, [])

/-- Model of `get_pole_pairs`: binary mode is unimplemented and returns `None`. -/
def get_pole_pairs (st : IfaceState) (board : Board) : Option ℤ × List Write :=
  match st.command_mode with
  | CommandMode.HUMAN_READABLE =>
    let pr := sendHumanCommand st board "get_pole_pairs"
    match pr.1 with
    | some r =>
      if r ≠ "" ∧ Py.pyStartsWith r "get_pole_pairs " then
        (Py.pyInt? (Py.splitOnceRest r), pr.2)
      else (none, pr.2)
    | none => (none, pr.2)
  | _ => (none, [])

/-- Model of `set_pole_pairs`: binary mode is unimplemented and returns `False`. -/
def set_pole_pairs (st : IfaceState) (board : Board) (pole_pairs : ℤ) :
    Bool × List Write :=
  match st.command_mode with
  | CommandMode.HUMAN_READABLE =>
    let pr := sendHumanCommand st board ("set_pole_pairs " ++ toString pole_pairs)
    match pr.1 with
    | some r =>
      if r ≠ "" ∧ Py.pyStartsWith r "set_pole_pairs " then
        match Py.pyInt? (Py.splitOnceRest r) with
        | some _ => (true, pr.2)
        | none => (false, pr.2)
      else (true, pr.2)
    | none => (false, pr.2)
  | _ => (false, [])

end USBInterface

/-- The 9-field record parsed by `get_full_state`. -/
structure FullState where
  position : ℚ
  velocity : ℚ
  torque : ℚ
  temperature : ℚ
  bus_voltage : ℚ
  internal_temperature : ℚ
  current_a : ℚ
  current_b : ℚ
  current_c : ℚ
deriving DecidableEq, Repr

namespace USBInterface

/-- Model of `get_full_state`: human mode parses
`full_state pos vel torque temp voltage int_temp ia ib ic` when at least
10 whitespace-separated fields are present; binary mode is unimplemented
and returns `None` at once. -/
def get_full_state (st : IfaceState) (board : Board) :
    Option FullState × List Write :=
  match st.command_mode with
  | CommandMode.HUMAN_READABLE =>
    let pr := sendHumanCommand st board "get_full_state"
    match pr.1 with
    | some r =>
      if r ≠ "" ∧ Py.pyStartsWith r "full_state " then
        let parts := Py.pySplit r
        if 10 ≤ parts.length then
          match Py.pyFloat? (parts.getD 1 ""), Py.pyFloat? (parts.getD 2 ""),
              Py.pyFloat? (parts.getD 3 ""), Py.pyFloat? (parts.getD 4 ""),
              Py.pyFloat? (parts.getD 5 ""), Py.pyFloat? (parts.getD 6 ""),
              Py.pyFloat? (parts.getD 7 ""), Py.pyFloat? (parts.getD 8 ""),
              Py.pyFloat? (parts.getD 9 "") with
          | some a, some b, some c, some d, some e, some f, some g, some h,
              some i => (some ⟨a, b, c, d, e, f, g, h, i⟩, pr.2)
          | _, _, _, _, _, _, _, _, _ => (none, pr.2)
        else (none, pr.2)
      else (none, pr.2)
    | none => (none, pr.2)
  | _ => (none, [])

end USBInterface

/-- The cached device state of `ACBv2` as initialised in `__init__`.
`TorqueControlType` and `FOCModulationType` are imported by `ACBv2.py` but
defined nowhere in the repository; since no claim observes those two
caches beyond their presence, their (unobtainable) values are `Unit`. -/
structure ACBv2State where
  position : Option ℚ
  velocity : Option ℚ
  torque : Option ℚ
  temperature : Option ℚ
  bus_voltage : Option ℚ
  internal_temperature : Option ℚ
  enabled : Bool
  velocity_pid : Option (ℚ × ℚ × ℚ)
  angle_pid : Option (ℚ × ℚ × ℚ)
  current_pid : Option (ℚ × ℚ × ℚ)
  downsample : Option ℤ
  min_angle : Option ℚ
  max_angle : Option ℚ
  torque_controller : Option Unit
  foc_modulation : Option Unit
deriving DecidableEq, Repr

namespace ACBv2

/-! Embedding of the `ACBv2` device-state facade
(`src/open_actuator/actuators/ACBv2.py`). Each operation takes the
underlying interface state, the board oracle and the cached facade state,
and returns the Python result paired with the updated facade state. -/

/-- The state right after `__init__`: every cache empty, not enabled. -/
def init : ACBv2State :=
  ⟨none, none, none, none, none, none, false, none, none, none, none, none,
    none, none, none⟩

/-- Model of `get_position`: cache the fresh value on success. -/
def get_position (ifst : IfaceState) (board : Board) (st : ACBv2State) :
    Option ℚ × ACBv2State :=
  match (USBInterface.get_position ifst board).1 with
  | some position => (some position, { st with position := some position })
  | none => (none, st)

/-- Model of `get_velocity`: cache the fresh value on success. -/
def get_velocity (ifst : IfaceState) (board : Board) (st : ACBv2State) :
    Option ℚ × ACBv2State :=
  match (USBInterface.get_velocity ifst board).1 with
  | some velocity => (some velocity, { st with velocity := some velocity })
  | none => (none, st)

/-- Model of `get_torque`: cache the fresh value on success. -/
def get_torque (ifst : IfaceState) (board : Board) (st : ACBv2State) :
    Option ℚ × ACBv2State :=
  match (USBInterface.get_torque ifst board).1 with
  | some torque => (some torque, { st with torque := some torque })
  | none => (none, st)

/-- Model of `set_position`: plain delegation, no cache update. -/
def set_position (ifst : IfaceState) (board : Board) (st : ACBv2State)
    (position : ℚ) : POut Bool × ACBv2State :=
  ((USBInterface.set_position ifst board position).1, st)

/-- Model of `set_velocity`: plain delegation, no cache update. -/
def set_velocity (ifst : IfaceState) (board : Board) (st : ACBv2State)
    (velocity : ℚ) : POut Bool × ACBv2State :=
  ((USBInterface.set_velocity ifst board velocity).1, st)

/-- Model of `set_torque`: plain delegation, no cache update. -/
def set_torque (ifst : IfaceState) (board : Board) (st : ACBv2State)
    (torque : ℚ) : POut Bool × ACBv2State :=
  ((USBInterface.set_torque ifst board torque).1, st)

/-- Model of `enable`: set the cached flag on success. -/
def enable (ifst : IfaceState) (board : Board) (st : ACBv2State) :
    Bool × ACBv2State :=
  let success := (USBInterface.enable ifst board).1
  if success then (success, { st with enabled := true }) else (success, st)

/-- Model of `disable`: clear the cached flag on success. -/
def disable (ifst : IfaceState) (board : Board) (st : ACBv2State) :
    Bool × ACBv2State :=
  let success := (USBInterface.disable ifst board).1
  if success then (success, { st with enabled := false }) else (success, st)

/-- Model of `get_temperature`: cache the fresh value on success. -/
def get_temperature (ifst : IfaceState) (board : Board) (st : ACBv2State) :
    Option ℚ × ACBv2State :=
  match (USBInterface.get_temperature ifst board).1 with
  | some temperature =>
    (some temperature, { st with temperature := some temperature })
  | none => (none, st)

/-- Model of `get_bus_voltage`: cache the fresh value on success. -/
def get_bus_voltage (ifst : IfaceState) (board : Board) (st : ACBv2State) :
    Option ℚ × ACBv2State :=
  match (USBInterface.get_bus_voltage ifst board).1 with
  | some bus_voltage =>
    (some bus_voltage, { st with bus_voltage := some bus_voltage })
  | none => (none, st)

/-- Model of `get_internal_temperature`: cache the fresh value on success. -/
def get_internal_temperature (ifst : IfaceState) (board : Board)
    (st : ACBv2State) : Option ℚ × ACBv2State :=
  match (USBInterface.get_internal_temperature ifst board).1 with
  | some internal_temperature =>
    (some internal_temperature,
      { st with internal_temperature := some internal_temperature })
  | none => (none, st)

/-- Model of `get_velocity_pid`: cache the fresh triple on success. -/
def get_velocity_pid (ifst : IfaceState) (board : Board) (st : ACBv2State) :
    Option (ℚ × ℚ × ℚ) × ACBv2State :=
  match (USBInterface.get_velocity_pid ifst board).1 with
  | some pid_values =>
    (some pid_values, { st with velocity_pid := some pid_values })
  | none => (none, st)

/-- Model of `get_angle_pid`: cache the fresh triple on success. -/
def get_angle_pid (ifst : IfaceState) (board : Board) (st : ACBv2State) :
    Option (ℚ × ℚ × ℚ) × ACBv2State :=
  match (USBInterface.get_angle_pid ifst board).1 with
  | some pid_values =>
    (some pid_values, { st with angle_pid := some pid_values })
  | none => (none, st)

/-- Model of `get_current_pid`: cache the fresh triple on success. -/
def get_current_pid (ifst : IfaceState) (board : Board) (st : ACBv2State) :
    Option (ℚ × ℚ × ℚ) × ACBv2State :=
  match (USBInterface.get_current_pid ifst board).1 with
  | some pid_values =>
    (some pid_values, { st with current_pid := some pid_values })
  | none => (none, st)

/-- Model of `get_downsample`: cache the fresh value on success. -/
def get_downsample (ifst : IfaceState) (board : Board) (st : ACBv2State) :
    Option ℤ × ACBv2State :=
  match (USBInterface.get_downsample ifst board).1 with
  | some downsample =>
    (some downsample, { st with downsample := some downsample })
  | none => (none, st)

/-- Model of `get_pole_pairs`: returns the fresh value but caches nothing — the
facade state has no pole-pairs field and the method body performs no
assignment. -/
def get_pole_pairs (ifst : IfaceState) (board : Board) (st : ACBv2State) :
    Option ℤ × ACBv2State :=
  let pole_pairs := (USBInterface.get_pole_pairs ifst board).1
  (pole_pairs, st)

/-- Model of `get_full_state`: plain delegation, no cache update. -/
def get_full_state (ifst : IfaceState) (board : Board) (st : ACBv2State) :
    Option FullState × ACBv2State :=
  ((USBInterface.get_full_state ifst board).1, st)

/-- Model of `get_min_angle` calls `self.interface.get_min_angle()`, but
`USBInterface` defines no such method: the call raises `AttributeError`
before any transport interaction, so the outcome is an escaped exception
and the cache is untouched. -/
def get_min_angle (_ifst : IfaceState) (_board : Board) (st : ACBv2State) :
    POut (Option ℚ) × ACBv2State :=
  (POut.exn, st)

/-- Model of `get_max_angle` calls `self.interface.get_max_angle()`, which likewise
does not exist: `AttributeError` escapes, the cache is untouched. -/
def get_max_angle (_ifst : IfaceState) (_board : Board) (st : ACBv2State) :
    POut (Option ℚ) × ACBv2State :=
  (POut.exn, st)

end ACBv2

namespace ActuatorInterface

/-! Embedding of the legacy client `ActuatorInterface`
(`src/open_actuator/actuator_interface.py`), restricted to the operations
it shares with `USBInterface`. Apart from `[DEBUG]` prints, the legacy
bodies are the same as the current ones; they are nevertheless translated
separately from their own file. -/

/-- Legacy `_float_to_q88`. -/
def float_to_q88 (value : ℚ) : ℤ :=
  let clamped := max (-128) (min (127996 / 1000) value)
  truncQ (clamped * 256) % 65536

/-- Legacy `_q88_to_float`. -/
def q88_to_float (value : ℤ) : ℚ :=
  let signed := if 32768 ≤ value % 65536 then value - 65536 else value
  (signed : ℚ) / 256

/-- Legacy `_send_human_command`. -/
def sendHumanCommand (st : IfaceState) (board : Board) (command : String) :
    Option String × List Write :=
  if st.connected && st.serialConn then
    match board.humanReply command with
    | some raw => (some (Py.pyStrip raw), [Write.human command])
    | none => (none, [Write.human command])
  else
    (none, [])

/-- Legacy `_send_binary_command`. -/
def sendBinaryCommand (st : IfaceState) (board : Board) (command_id : ℕ)
    (data : List ℕ) : Option (List ℕ) × List Write :=
  if st.connected && st.serialConn then
    match board.binaryReply (command_id :: data) with
    | some avail => (some (avail.take 1), [Write.binary (command_id :: data)])
    | none => (none, [Write.binary (command_id :: data)])
  else
    (none, [])

/-- Legacy `set_position`. -/
def set_position (st : IfaceState) (board : Board) (position : ℚ) :
    POut Bool × List Write :=
  match st.command_mode with
  | CommandMode.HUMAN_READABLE =>
    let pr := sendHumanCommand st board ("set_position " ++ Py.pyFloatRepr position)
    match pr.1 with
    | some r =>
      if r ≠ "" ∧ Py.pyStartsWith r "set_position " then
        match Py.pyFloat? (Py.splitOnceRest r) with
        | some _ => (POut.ok true, pr.2)
        | none => (POut.ok false, pr.2)
      else
        (POut.ok true, pr.2)
    | none => (POut.ok false, pr.2)
  | _ =>
    match packh (float_to_q88 position) with
    | some data =>
      let pr := sendBinaryCommand st board CommandID.SET_POSITION data
      (POut.ok pr.1.isSome, pr.2)
    | none => (POut.exn, [])

/-- Legacy `set_velocity`. -/
def set_velocity (st : IfaceState) (board : Board) (velocity : ℚ) :
    POut Bool × List Write :=
  match st.command_mode with
  | CommandMode.HUMAN_READABLE =>
    let pr := sendHumanCommand st board ("set_velocity " ++ Py.pyFloatRepr velocity)
    match pr.1 with
    | some r =>
      if r ≠ "" ∧ Py.pyStartsWith r "set_velocity " then
        match Py.pyFloat? (Py.splitOnceRest r) with
        | some _ => (POut.ok true, pr.2)
        | none => (POut.ok false, pr.2)
      else
        (POut.ok true, pr.2)
    | none => (POut.ok false, pr.2)
  | _ =>
    match packh (float_to_q88 velocity) with
    | some data =>
      let pr := sendBinaryCommand st board CommandID.SET_VELOCITY data
      (POut.ok pr.1.isSome, pr.2)
    | none => (POut.exn, [])

/-- Legacy `set_torque`. -/
def set_torque (st : IfaceState) (board : Board) (torque : ℚ) :
    POut Bool × List Write :=
  match st.command_mode with
  | CommandMode.HUMAN_READABLE =>
    let pr := sendHumanCommand st board ("set_torque " ++ Py.pyFloatRepr torque)
    match pr.1 with
    | some r =>
      if r ≠ "" ∧ Py.pyStartsWith r "set_torque " then
        match Py.pyFloat? (Py.splitOnceRest r) with
        | some _ => (POut.ok true, pr.2)
        | none => (POut.ok false, pr.2)
      else
        (POut.ok true, pr.2)
    | none => (POut.ok false, pr.2)
  | _ =>
    match packh (float_to_q88 torque) with
    | some data =>
      let pr := sendBinaryCommand st board CommandID.SET_TORQUE data
      (POut.ok pr.1.isSome, pr.2)
    | none => (POut.exn, [])

/-- Legacy `get_position`. -/
def get_position (st : IfaceState) (board : Board) : Option ℚ × List Write :=
  match st.command_mode with
  | CommandMode.HUMAN_READABLE =>
    let pr := sendHumanCommand st board "get_position"
    match pr.1 with
    | some r =>
      if r ≠ "" then
        if Py.pyStartsWith r "get_position " then
          (Py.pyFloat? (Py.splitOnceRest r), pr.2)
        else
          (Py.pyFloat? r, pr.2)
      else (none, pr.2)
    | none => (none, pr.2)
  | _ =>
    let pr := sendBinaryCommand st board CommandID.GET_POSITION []
    match pr.1 with
    | some bytes =>
      if bytes ≠ [] ∧ 2 ≤ bytes.length then
        (some (q88_to_float (unpack_h_be (bytes.headD 0) ((bytes.drop 1).headD 0))), pr.2)
      else (none, pr.2)
    | none => (none, pr.2)

/-- Legacy `get_velocity`. -/
def get_velocity (st : IfaceState) (board : Board) : Option ℚ × List Write :=
  match st.command_mode with
  | CommandMode.HUMAN_READABLE =>
    let pr := sendHumanCommand st board "get_velocity"
    match pr.1 with
    | some r =>
      if r ≠ "" then
        if Py.pyStartsWith r "get_velocity " then
          (Py.pyFloat? (Py.splitOnceRest r), pr.2)
        else
          (Py.pyFloat? r, pr.2)
      else (none, pr.2)
    | none => (none, pr.2)
  | _ =>
    let pr := sendBinaryCommand st board CommandID.GET_VELOCITY []
    match pr.1 with
    | some bytes =>
      if bytes ≠ [] ∧ 2 ≤ bytes.length then
        (some (q88_to_float (unpack_h_be (bytes.headD 0) ((bytes.drop 1).headD 0))), pr.2)
      else (none, pr.2)
    | none => (none, pr.2)

/-- Legacy `get_torque`. -/
def get_torque (st : IfaceState) (board : Board) : Option ℚ × List Write :=
  match st.command_mode with
  | CommandMode.HUMAN_READABLE =>
    let pr := sendHumanCommand st board "get_torque"
    match pr.1 with
    | some r =>
      if r ≠ "" then
        if Py.pyStartsWith r "get_torque " then
          (Py.pyFloat? (Py.splitOnceRest r), pr.2)
        else
          (Py.pyFloat? r, pr.2)
      else (none, pr.2)
    | none => (none, pr.2)
  | _ =>
    let pr := sendBinaryCommand st board CommandID.GET_TORQUE []
    match pr.1 with
    | some bytes =>
      if bytes ≠ [] ∧ 2 ≤ bytes.length then
        (some (q88_to_float (unpack_h_be (bytes.headD 0) ((bytes.drop 1).headD 0))), pr.2)
      else (none, pr.2)
    | none => (none, pr.2)

/-- Legacy `enable`. -/
def enable (st : IfaceState) (board : Board) : Bool × List Write :=
  match st.command_mode with
  | CommandMode.HUMAN_READABLE =>
    let pr := sendHumanCommand st board "enable"
    (pr.1 = some "enable", pr.2)
  | _ =>
    let pr := sendBinaryCommand st board CommandID.ENABLE []
    (pr.1.isSome, pr.2)

/-- Legacy `disable`. -/
def disable (st : IfaceState) (board : Board) : Bool × List Write :=
  match st.command_mode with
  | CommandMode.HUMAN_READABLE =>
    let pr := sendHumanCommand st board "disable"
    (pr.1 = some "disable", pr.2)
  | _ =>
    let pr := sendBinaryCommand st board CommandID.DISABLE []
    (pr.1.isSome, pr.2)

/-- Legacy `home`. -/
def home (st : IfaceState) (board : Board) : Bool × List Write :=
  match st.command_mode with
  | CommandMode.HUMAN_READABLE =>
    let pr := sendHumanCommand st board "home"
    (pr.1.isSome, pr.2)
  | _ =>
    let pr := sendBinaryCommand st board CommandID.HOME []
    (pr.1.isSome, pr.2)

/-- Legacy `stop`. -/
def stop (st : IfaceState) (board : Board) : Bool × List Write :=
  match st.command_mode with
  | CommandMode.HUMAN_READABLE =>
    let pr := sendHumanCommand st board "stop"
    (pr.1.isSome, pr.2)
  | _ =>
    let pr := sendBinaryCommand st board CommandID.STOP []
    (pr.1.isSome, pr.2)

end ActuatorInterface

/-! Concrete fixtures shared by several claims. -/

/-- A connected client in human-readable mode. -/
def stHuman : IfaceState := ⟨true, true, CommandMode.HUMAN_READABLE⟩

/-- A connected client in high-speed binary mode. -/
def stBinary : IfaceState := ⟨true, true, CommandMode.HIGH_SPEED_BINARY⟩

/-- A client in human-readable mode whose transport was never opened or
already closed. -/
def stHumanDisc : IfaceState := ⟨false, false, CommandMode.HUMAN_READABLE⟩

/-- A client in high-speed binary mode with no open transport. -/
def stBinaryDisc : IfaceState := ⟨false, false, CommandMode.HIGH_SPEED_BINARY⟩

/-- A board that answers every human-readable command with the fixed line
`line` and every binary packet with an empty byte stream. -/
def boardEcho (line : String) : Board :=
  ⟨fun _ => some line, fun _ => some [], fun _ => 0⟩

/-- A board that answers every binary packet with the byte stream `bytes`
and every human-readable command with an empty line. -/
def boardBytes (bytes : List ℕ) : Board :=
  ⟨fun _ => some "", fun _ => some bytes, fun _ => 0⟩

/-! Auxiliary lemmas. -/

/-- When the transport is absent, `_send_human_command` fails without
writing. -/
theorem sendHuman_disconnected (st : IfaceState) (board : Board) (c : String)
    (h : st.connected = false) :
    USBInterface.sendHumanCommand st board c = (none, []) := by
  simp [USBInterface.sendHumanCommand, h]

/-- When the transport is absent, `_send_binary_command` fails without
writing. -/
theorem sendBinary_disconnected (st : IfaceState) (board : Board) (cid : ℕ)
    (data : List ℕ) (h : st.connected = false) :
    USBInterface.sendBinaryCommand st board cid data = (none, []) := by
  simp [USBInterface.sendBinaryCommand, h]

/-- Truncation toward zero moves a rational by less than 1. -/
theorem truncQ_dist (x : ℚ) : |(truncQ x : ℚ) - x| < 1 := by
  unfold truncQ
  by_cases h : 0 ≤ x
  · rw [if_pos h]
    have h1 := Int.floor_le x
    have h2 := Int.sub_one_lt_floor x
    rw [abs_sub_lt_iff]
    constructor <;> linarith
  · rw [if_neg h]
    have h1 := Int.le_ceil x
    have h2 := Int.ceil_lt_add_one x
    rw [abs_sub_lt_iff]
    constructor <;> linarith

/-- Decoding the masked encoding of an in-range word recovers `t / 256`. -/
theorem q88_round (t : ℤ) (h1 : -32768 ≤ t) (h2 : t ≤ 32767) :
    USBInterface.q88_to_float (t % 65536) = (t : ℚ) / 256 := by
  have key : (if 32768 ≤ t % 65536 % 65536 then t % 65536 - 65536 else t % 65536)
      = t := by
    split_ifs with hc <;> omega
  simp only [USBInterface.q88_to_float]
  rw [key]

/-- The clamp used by `_float_to_q88` is idempotent. -/
theorem clamp_idem (v : ℚ) :
    max (-128) (min (127996 / 1000) (max (-128) (min (127996 / 1000) v))) =
      max (-128) (min (127996 / 1000) v) := by
  have h1 : max (-128) (min (127996 / 1000) v) ≤ (127996 / 1000 : ℚ) :=
    max_le (by norm_num) (min_le_left _ _)
  have h2 : (-128 : ℚ) ≤ max (-128) (min (127996 / 1000) v) := le_max_left _ _
  rw [min_eq_right h1, max_eq_right h2]

/-- C2: for every value in `[-128, 32767/256]` the decode of the encode is
within `1/256` of the value; the encoder always clamps to
`[-128, 127.996]` before encoding, and in particular encoding `200.0` and
encoding `127.996` agree. -/
theorem c2_theorem :
    (∀ v : ℚ, -128 ≤ v → v ≤ 32767 / 256 →
      |USBInterface.q88_to_float (USBInterface.float_to_q88 v) - v| ≤ 1 / 256) ∧
    (∀ v : ℚ, USBInterface.float_to_q88 v =
      USBInterface.float_to_q88 (max (-128) (min (127996 / 1000) v))) ∧
    USBInterface.float_to_q88 200 = USBInterface.float_to_q88 (127996 / 1000) := by
  refine ⟨?_, ?_, ?_⟩
  · intro v h1 h2
    by_cases hv : v ≤ (127996 / 1000 : ℚ)
    · have hclamp : max (-128) (min (127996 / 1000) v) = v := by
        rw [min_eq_right hv, max_eq_right h1]
      simp only [USBInterface.float_to_q88]
      rw [hclamp]
      set t := truncQ (v * 256) with ht
      have hd := truncQ_dist (v * 256)
      have habs := abs_sub_lt_iff.mp hd
      have htl : -32768 ≤ t := by
        have hq : (-32769 : ℚ) < (t : ℚ) := by nlinarith [habs.2]
        have hz : (-32769 : ℤ) < t := by exact_mod_cast hq
        omega
      have htu : t ≤ 32767 := by
        have hq : (t : ℚ) < 32768 := by nlinarith [habs.1]
        have hz : t < (32768 : ℤ) := by exact_mod_cast hq
        omega
      rw [q88_round t htl htu]
      have heq : (t : ℚ) / 256 - v = ((t : ℚ) - v * 256) / 256 := by ring
      rw [heq, abs_div, abs_of_pos (by norm_num : (0:ℚ) < 256)]
      have hle : |(t : ℚ) - v * 256| ≤ 1 := le_of_lt hd
      linarith
    · have hA1 : max (-128) (min (127996 / 1000) v) = (127996 / 1000 : ℚ) := by
        rw [min_eq_left (le_of_lt (not_le.mp hv)), max_eq_right (by norm_num)]
      simp only [USBInterface.float_to_q88]
      rw [hA1]
      have htr : truncQ ((127996 / 1000 : ℚ) * 256) = 32766 := by
        unfold truncQ
        rw [if_pos (by norm_num)]
        rw [show ((127996 / 1000 : ℚ) * 256) = 32766976 / 1000 by norm_num]
        rw [Int.floor_eq_iff]
        constructor <;> norm_num
      rw [htr, q88_round 32766 (by norm_num) (by norm_num)]
      have hv' : (127996 / 1000 : ℚ) < v := not_le.mp hv
      rw [abs_le]
      constructor
      · push_cast
        linarith
      · push_cast
        linarith
  · intro v
    simp only [USBInterface.float_to_q88]
    rw [clamp_idem]
  · simp only [USBInterface.float_to_q88]
    norm_num [min_def, max_def]

/-- C2 witness: the round-trip bound instantiated at `v = 3`. -/
theorem c2_witness :
    |USBInterface.q88_to_float (USBInterface.float_to_q88 3) - 3| ≤ 1 / 256 :=
  c2_theorem.1 3 (by norm_num) (by norm_num)

/-- The human exchange yields a reply iff connected and the oracle raised
no exception. -/
theorem sendHuman_isSome (st : IfaceState) (board : Board) (c : String) :
    (USBInterface.sendHumanCommand st board c).1.isSome =
      (st.connected && st.serialConn && (board.humanReply c).isSome) := by
  unfold USBInterface.sendHumanCommand
  cases hc : st.connected && st.serialConn
  · simp [hc]
  · cases hb : board.humanReply c <;> simp [hb]

/-- The human exchange writes exactly the command line when connected. -/
theorem sendHuman_writes (st : IfaceState) (board : Board) (c : String) :
    (USBInterface.sendHumanCommand st board c).2 =
      (if st.connected && st.serialConn then [Write.human c] else []) := by
  unfold USBInterface.sendHumanCommand
  cases hc : st.connected && st.serialConn
  · simp [hc]
  · cases hb : board.humanReply c <;> simp [hb]

/-- The binary exchange yields a reply iff connected and the oracle raised
no exception. -/
theorem sendBinary_isSome (st : IfaceState) (board : Board) (cid : ℕ)
    (data : List ℕ) :
    (USBInterface.sendBinaryCommand st board cid data).1.isSome =
      (st.connected && st.serialConn &&
        (board.binaryReply (cid :: data)).isSome) := by
  unfold USBInterface.sendBinaryCommand
  cases hc : st.connected && st.serialConn
  · simp [hc]
  · cases hb : board.binaryReply (cid :: data) <;> simp [hb]

/-- The binary exchange writes exactly the packet when connected. -/
theorem sendBinary_writes (st : IfaceState) (board : Board) (cid : ℕ)
    (data : List ℕ) :
    (USBInterface.sendBinaryCommand st board cid data).2 =
      (if st.connected && st.serialConn then [Write.binary (cid :: data)]
       else []) := by
  unfold USBInterface.sendBinaryCommand
  cases hc : st.connected && st.serialConn
  · simp [hc]
  · cases hb : board.binaryReply (cid :: data) <;> simp [hb]

/-- Model of `_send_binary_command` never yields more than one reply byte. -/
theorem sendBinary_short (st : IfaceState) (board : Board) (cid : ℕ)
    (data : List ℕ) (bytes : List ℕ)
    (h : (USBInterface.sendBinaryCommand st board cid data).1 = some bytes) :
    bytes.length ≤ 1 := by
  unfold USBInterface.sendBinaryCommand at h
  cases hc : st.connected && st.serialConn <;> rw [hc] at h
  · simp at h
  · cases hb : board.binaryReply (cid :: data) <;> rw [hb] at h
    · simp at h
    · simp at h
      subst h
      simp [List.length_take]


/-- C3: in any non-human mode, the scalar getters always fail — the
transport layer reads a single byte while the decoder demands at least
two, so the Q8.8 decode path can never run, whatever the board answers. -/
theorem c3_theorem : ∀ (st : IfaceState) (board : Board),
    st.command_mode ≠ CommandMode.HUMAN_READABLE →
    (USBInterface.get_position st board).1 = none ∧
    (USBInterface.get_velocity st board).1 = none ∧
    (USBInterface.get_torque st board).1 = none := by
  intro st board h
  rcases st with ⟨c, sc, m⟩
  refine ⟨?_, ?_, ?_⟩ <;> cases m
  case' refine_1.HUMAN_READABLE => exact absurd rfl h
  case' refine_2.HUMAN_READABLE => exact absurd rfl h
  case' refine_3.HUMAN_READABLE => exact absurd rfl h
  all_goals
    first
    | (cases c <;> cases sc <;>
        (cases hb : board.binaryReply [CommandID.GET_POSITION] <;>
          simp [USBInterface.get_position, USBInterface.sendBinaryCommand, hb,
            List.length_take, le_min_iff]))
    | (cases c <;> cases sc <;>
        (cases hb : board.binaryReply [CommandID.GET_VELOCITY] <;>
          simp [USBInterface.get_velocity, USBInterface.sendBinaryCommand, hb,
            List.length_take, le_min_iff]))
    | (cases c <;> cases sc <;>
        (cases hb : board.binaryReply [CommandID.GET_TORQUE] <;>
          simp [USBInterface.get_torque, USBInterface.sendBinaryCommand, hb,
            List.length_take, le_min_iff]))

/-- C3 witness: even a board with a full 2-byte Q8.8 reply available
(here `0x2A 0x80`, i.e. 42.5) never gets it decoded in binary mode. -/
theorem c3_witness :
    (USBInterface.get_position stBinary (boardBytes [0x2A, 0x80])).1 = none :=
  (c3_theorem stBinary (boardBytes [0x2A, 0x80]) (by decide)).1

/-- C5 (amended): in any non-human mode, the PID, save-config and
downsample operations fail at once — returning the plain `None`/`False`
failure value, with no distinct condition — and write nothing. -/
theorem c5_theorem : ∀ (st : IfaceState) (board : Board),
    st.command_mode ≠ CommandMode.HUMAN_READABLE →
    USBInterface.get_velocity_pid st board = (none, []) ∧
    (∀ p i d : ℚ, USBInterface.set_velocity_pid st board p i d = (false, [])) ∧
    USBInterface.get_angle_pid st board = (none, []) ∧
    (∀ p i d : ℚ, USBInterface.set_angle_pid st board p i d = (false, [])) ∧
    USBInterface.get_current_pid st board = (none, []) ∧
    (∀ p i d : ℚ, USBInterface.set_current_pid st board p i d = (false, [])) ∧
    USBInterface.save_config st board = (false, []) ∧
    USBInterface.get_downsample st board = (none, []) ∧
    (∀ n : ℤ, USBInterface.set_downsample st board n = (false, [])) := by
  intro st board h
  rcases st with ⟨c, sc, m⟩
  cases m
  · exact absurd rfl h
  all_goals
    exact ⟨rfl, fun p i d => rfl, rfl, fun p i d => rfl, rfl, fun p i d => rfl,
      rfl, rfl, fun n => rfl⟩

/-- C5 counterexample to the claim as stated: the failure value returned
in binary mode is the very same plain `none` produced by a not-connected
failure in human mode — there is no distinct `NotSupportedInMode`
condition to observe. -/
theorem c5_counterexample :
    (USBInterface.get_velocity_pid stBinary (boardBytes [1])).1 = none ∧
    (USBInterface.get_velocity_pid stHumanDisc (boardBytes [1])).1 = none ∧
    (USBInterface.get_velocity_pid stBinary (boardBytes [1])).1 =
      (USBInterface.get_velocity_pid stHumanDisc (boardBytes [1])).1 := by
  refine ⟨rfl, ?_, ?_⟩ <;>
    simp [USBInterface.get_velocity_pid, USBInterface.sendHumanCommand,
      stHumanDisc, stBinary]

/-- C5 witness: the amended statement instantiated in binary mode. -/
theorem c5_witness :
    USBInterface.get_velocity_pid stBinary (boardBytes []) = (none, []) :=
  (c5_theorem stBinary (boardBytes []) (by decide)).1

/-- C9 (amended): `home` and `stop` succeed exactly when the transport is
connected and the exchange raises no error; the reply content — even an
empty line or zero bytes from a read timeout — is never inspected. -/
theorem c9_theorem : ∀ (st : IfaceState) (board : Board),
    (USBInterface.home st board).1 =
      (st.connected && st.serialConn &&
        (match st.command_mode with
         | CommandMode.HUMAN_READABLE => (board.humanReply "home").isSome
         | _ => (board.binaryReply [CommandID.HOME]).isSome)) ∧
    (USBInterface.stop st board).1 =
      (st.connected && st.serialConn &&
        (match st.command_mode with
         | CommandMode.HUMAN_READABLE => (board.humanReply "stop").isSome
         | _ => (board.binaryReply [CommandID.STOP]).isSome)) := by
  intro st board
  rcases st with ⟨c, sc, m⟩
  refine ⟨?_, ?_⟩ <;> cases m <;>
    simp [USBInterface.home, USBInterface.stop, sendHuman_isSome,
      sendBinary_isSome]

/-- C9 counterexample to the claim as stated: an empty reply — the line
`""` after a human-mode read timeout, or zero bytes in binary mode — still
yields success, where the claim requires failure. -/
theorem c9_counterexample :
    (boardEcho "").humanReply "home" = some "" ∧
    (USBInterface.home stHuman (boardEcho "")).1 = true ∧
    (boardBytes []).binaryReply [CommandID.STOP] = some [] ∧
    (USBInterface.stop stBinary (boardBytes [])).1 = true := by
  refine ⟨rfl, ?_, rfl, ?_⟩ <;>
    simp [USBInterface.home, USBInterface.stop, USBInterface.sendHumanCommand,
      USBInterface.sendBinaryCommand, stHuman, stBinary, boardEcho, boardBytes]

/-- C6: `set_command_mode` sends the switch command encoded in the
currently active mode, never raises, succeeds exactly when the exchange
returned a reply, and updates the local mode field exactly on success —
a failed switch leaves the whole client state unchanged. -/
theorem c6_theorem : ∀ (st : IfaceState) (board : Board) (target : CommandMode),
    ((USBInterface.set_command_mode st board target).2 =
      if st.connected && st.serialConn then
        [match st.command_mode with
         | CommandMode.HUMAN_READABLE =>
             Write.human ("cmd_mode " ++ toString target.value)
         | _ => Write.binary [CommandID.CMD_MODE, 0, target.value]]
      else []) ∧
    ((USBInterface.set_command_mode st board target).1.1 ≠ POut.exn) ∧
    ((USBInterface.set_command_mode st board target).1.1 = POut.ok true ↔
      (st.connected && st.serialConn &&
        (match st.command_mode with
         | CommandMode.HUMAN_READABLE =>
             (board.humanReply ("cmd_mode " ++ toString target.value)).isSome
         | _ => (board.binaryReply
             [CommandID.CMD_MODE, 0, target.value]).isSome)) = true) ∧
    ((USBInterface.set_command_mode st board target).1.1 = POut.ok true →
      (USBInterface.set_command_mode st board target).1.2 =
        { st with command_mode := target }) ∧
    ((USBInterface.set_command_mode st board target).1.1 = POut.ok false →
      (USBInterface.set_command_mode st board target).1.2 = st) := by
  intro st board target
  rcases st with ⟨c, sc, m⟩
  have hp1 : packh (1 : ℤ) = some [0, 1] := by decide
  have hp2 : packh (2 : ℤ) = some [0, 2] := by decide
  have hp3 : packh (3 : ℤ) = some [0, 3] := by decide
  cases m
  · refine ⟨?_, ?_, ?_, ?_, ?_⟩ <;>
      (cases c <;> cases sc <;>
        cases hb : board.humanReply ("cmd_mode " ++ toString (CommandMode.value target)) <;>
        simp [USBInterface.set_command_mode, USBInterface.sendHumanCommand, hb])
  all_goals
    cases target <;>
      refine ⟨?_, ?_, ?_, ?_, ?_⟩ <;>
        (cases c <;> cases sc <;>
          first
          | (cases hb : board.binaryReply [CommandID.CMD_MODE, 0, 1] <;>
              simp [USBInterface.set_command_mode, USBInterface.sendBinaryCommand,
                hp1, hb, CommandMode.value]
             done)
          | (cases hb : board.binaryReply [CommandID.CMD_MODE, 0, 2] <;>
              simp [USBInterface.set_command_mode, USBInterface.sendBinaryCommand,
                hp2, hb, CommandMode.value]
             done)
          | (cases hb : board.binaryReply [CommandID.CMD_MODE, 0, 3] <;>
              simp [USBInterface.set_command_mode, USBInterface.sendBinaryCommand,
                hp3, hb, CommandMode.value]
             done))

/-- C6 witness: a confirmed human-mode switch to binary updates the local
mode field. -/
theorem c6_witness :
    (USBInterface.set_command_mode stHuman (boardEcho "ok")
        CommandMode.HIGH_SPEED_BINARY).1.2.command_mode =
      CommandMode.HIGH_SPEED_BINARY := by
  have h := (c6_theorem stHuman (boardEcho "ok") CommandMode.HIGH_SPEED_BINARY).2.2.2.1
  rw [h rfl]


/-- Model of `set_position` on a closed transport: the payload pack still runs
first, so an out-of-range q8.8 word raises; otherwise the operation
returns `False`; nothing is ever written. -/
theorem set_position_disconnected (st : IfaceState) (board : Board) (v : ℚ)
    (h : st.connected = false) :
    USBInterface.set_position st board v =
      ((if st.command_mode = CommandMode.HUMAN_READABLE then POut.ok false
        else if USBInterface.float_to_q88 v ≤ 32767 then POut.ok false
        else POut.exn), []) := by
  have hfq : 0 ≤ USBInterface.float_to_q88 v := by
    simp only [USBInterface.float_to_q88]
    omega
  rcases st with ⟨c, sc, m⟩
  simp only at h
  subst h
  cases m
  · simp [USBInterface.set_position, USBInterface.sendHumanCommand]
  all_goals
    by_cases hq : USBInterface.float_to_q88 v ≤ 32767
    · rw [USBInterface.set_position, packh,
        if_pos (And.intro (by omega) hq)]
      simp [USBInterface.sendBinaryCommand, hq]
    · rw [USBInterface.set_position, packh, if_neg (by omega)]
      simp [hq]

/-- Model of `set_velocity` on a closed transport. Same shape as `set_position`. -/
theorem set_velocity_disconnected (st : IfaceState) (board : Board) (v : ℚ)
    (h : st.connected = false) :
    USBInterface.set_velocity st board v =
      ((if st.command_mode = CommandMode.HUMAN_READABLE then POut.ok false
        else if USBInterface.float_to_q88 v ≤ 32767 then POut.ok false
        else POut.exn), []) := by
  have hfq : 0 ≤ USBInterface.float_to_q88 v := by
    simp only [USBInterface.float_to_q88]
    omega
  rcases st with ⟨c, sc, m⟩
  simp only at h
  subst h
  cases m
  · simp [USBInterface.set_velocity, USBInterface.sendHumanCommand]
  all_goals
    by_cases hq : USBInterface.float_to_q88 v ≤ 32767
    · rw [USBInterface.set_velocity, packh,
        if_pos (And.intro (by omega) hq)]
      simp [USBInterface.sendBinaryCommand, hq]
    · rw [USBInterface.set_velocity, packh, if_neg (by omega)]
      simp [hq]

/-- Model of `set_torque` on a closed transport. Same shape as `set_position`. -/
theorem set_torque_disconnected (st : IfaceState) (board : Board) (v : ℚ)
    (h : st.connected = false) :
    USBInterface.set_torque st board v =
      ((if st.command_mode = CommandMode.HUMAN_READABLE then POut.ok false
        else if USBInterface.float_to_q88 v ≤ 32767 then POut.ok false
        else POut.exn), []) := by
  have hfq : 0 ≤ USBInterface.float_to_q88 v := by
    simp only [USBInterface.float_to_q88]
    omega
  rcases st with ⟨c, sc, m⟩
  simp only at h
  subst h
  cases m
  · simp [USBInterface.set_torque, USBInterface.sendHumanCommand]
  all_goals
    by_cases hq : USBInterface.float_to_q88 v ≤ 32767
    · rw [USBInterface.set_torque, packh,
        if_pos (And.intro (by omega) hq)]
      simp [USBInterface.sendBinaryCommand, hq]
    · rw [USBInterface.set_torque, packh, if_neg (by omega)]
      simp [hq]

/-- Model of `set_command_mode` on a closed transport fails plainly and leaves the
mode unchanged. -/
theorem set_command_mode_disconnected (st : IfaceState) (board : Board)
    (tgt : CommandMode) (h : st.connected = false) :
    USBInterface.set_command_mode st board tgt = ((POut.ok false, st), []) := by
  have hp1 : packh (1 : ℤ) = some [0, 1] := by decide
  have hp2 : packh (2 : ℤ) = some [0, 2] := by decide
  have hp3 : packh (3 : ℤ) = some [0, 3] := by decide
  rcases st with ⟨c, sc, m⟩
  simp only at h
  subst h
  cases m
  · simp [USBInterface.set_command_mode, USBInterface.sendHumanCommand]
  all_goals
    cases tgt <;>
      simp [USBInterface.set_command_mode, USBInterface.sendBinaryCommand,
        CommandMode.value, hp1, hp2, hp3]

/-- The q8.8 encoding of `-1.0` has the sign bit set. -/
theorem float_to_q88_neg_one : USBInterface.float_to_q88 (-1) = 65280 := by
  simp only [USBInterface.float_to_q88]
  have h1 : min (127996 / 1000 : ℚ) (-1) = -1 := min_eq_right (by norm_num)
  have h2 : max (-128 : ℚ) (-1 : ℚ) = -1 := max_eq_right (by norm_num)
  rw [h1, h2]
  have h3 : truncQ ((-1 : ℚ) * 256) = -256 := by
    unfold truncQ
    rw [if_neg (by norm_num)]
    rw [show ((-1 : ℚ) * 256) = ((-256 : ℤ) : ℚ) by norm_num]
    exact Int.ceil_intCast _
  rw [h3]
  decide

/-- C4 (amended): while the transport is not connected, no operation
performs any write or read, and every operation returns its plain failure
value — except that in binary mode a scalar set whose clamped Q8.8
encoding has the sign bit set (`_float_to_q88 > 32767`, i.e. any negative
target) raises `struct.error` out of the payload pack before the
connection is even consulted. -/
theorem c4_theorem : ∀ (st : IfaceState) (board : Board),
    st.connected = false →
    (∀ c, USBInterface.send_command st board c = (none, [])) ∧
    (USBInterface.get_position st board = (none, [])) ∧
    (USBInterface.get_velocity st board = (none, [])) ∧
    (USBInterface.get_torque st board = (none, [])) ∧
    (∀ v, USBInterface.set_position st board v =
      ((if st.command_mode = CommandMode.HUMAN_READABLE then POut.ok false
        else if USBInterface.float_to_q88 v ≤ 32767 then POut.ok false
        else POut.exn), [])) ∧
    (∀ v, USBInterface.set_velocity st board v =
      ((if st.command_mode = CommandMode.HUMAN_READABLE then POut.ok false
        else if USBInterface.float_to_q88 v ≤ 32767 then POut.ok false
        else POut.exn), [])) ∧
    (∀ v, USBInterface.set_torque st board v =
      ((if st.command_mode = CommandMode.HUMAN_READABLE then POut.ok false
        else if USBInterface.float_to_q88 v ≤ 32767 then POut.ok false
        else POut.exn), [])) ∧
    (USBInterface.enable st board = (false, [])) ∧
    (USBInterface.disable st board = (false, [])) ∧
    (USBInterface.home st board = (false, [])) ∧
    (USBInterface.stop st board = (false, [])) ∧
    (USBInterface.reset_position st board = (false, [])) ∧
    (∀ tgt, USBInterface.set_command_mode st board tgt =
      ((POut.ok false, st), [])) ∧
    (USBInterface.get_velocity_pid st board = (none, [])) ∧
    (∀ p i d, USBInterface.set_velocity_pid st board p i d = (false, [])) ∧
    (USBInterface.get_angle_pid st board = (none, [])) ∧
    (∀ p i d, USBInterface.set_angle_pid st board p i d = (false, [])) ∧
    (USBInterface.get_current_pid st board = (none, [])) ∧
    (∀ p i d, USBInterface.set_current_pid st board p i d = (false, [])) ∧
    (USBInterface.save_config st board = (false, [])) ∧
    (USBInterface.get_downsample st board = (none, [])) ∧
    (∀ n, USBInterface.set_downsample st board n = (false, [])) ∧
    (USBInterface.get_temperature st board = (none, [])) ∧
    (USBInterface.get_bus_voltage st board = (none, [])) ∧
    (USBInterface.get_internal_temperature st board = (none, [])) ∧
    (USBInterface.get_current_a st board = (none, [])) ∧
    (USBInterface.get_current_b st board = (none, [])) ∧
    (USBInterface.get_current_c st board = (none, [])) ∧
    (USBInterface.recalibrate_sensors st board = (false, [])) ∧
    (USBInterface.get_pole_pairs st board = (none, [])) ∧
    (∀ n, USBInterface.set_pole_pairs st board n = (false, [])) ∧
    (USBInterface.get_full_state st board = (none, [])) := by
  intro st board h
  refine ⟨?_, ?_, ?_, ?_,
    fun v => set_position_disconnected st board v h,
    fun v => set_velocity_disconnected st board v h,
    fun v => set_torque_disconnected st board v h,
    ?_, ?_, ?_, ?_, ?_,
    fun tgt => set_command_mode_disconnected st board tgt h,
    ?_, ?_, ?_, ?_, ?_, ?_, ?_, ?_, ?_, ?_, ?_, ?_, ?_, ?_, ?_, ?_, ?_, ?_,
    ?_⟩ <;>
  · intros
    rcases st with ⟨c, sc, m⟩
    simp only at h
    subst h
    cases m <;>
      simp [USBInterface.send_command, USBInterface.get_position,
        USBInterface.get_velocity, USBInterface.get_torque,
        USBInterface.enable, USBInterface.disable, USBInterface.home,
        USBInterface.stop, USBInterface.reset_position,
        USBInterface.get_velocity_pid, USBInterface.set_velocity_pid,
        USBInterface.get_angle_pid, USBInterface.set_angle_pid,
        USBInterface.get_current_pid, USBInterface.set_current_pid,
        USBInterface.save_config, USBInterface.get_downsample,
        USBInterface.set_downsample, USBInterface.get_temperature,
        USBInterface.get_bus_voltage, USBInterface.get_internal_temperature,
        USBInterface.get_current_a, USBInterface.get_current_b,
        USBInterface.get_current_c, USBInterface.recalibrate_sensors,
        USBInterface.get_pole_pairs, USBInterface.set_pole_pairs,
        USBInterface.get_full_state, USBInterface.sendHumanCommand,
        USBInterface.sendBinaryCommand]

/-- C4 counterexample to the claim as stated: `set_velocity(-1.0)` in
binary mode on a closed transport raises `struct.error` instead of
returning the `False`/`None` failure the claim requires (though indeed
nothing is written). -/
theorem c4_counterexample :
    USBInterface.set_velocity stBinaryDisc (boardBytes []) (-1) =
      (POut.exn, []) ∧ (∀ b : Bool, (POut.exn : POut Bool) ≠ POut.ok b) := by
  constructor
  · rw [set_velocity_disconnected stBinaryDisc (boardBytes []) (-1) rfl]
    rw [if_neg (by decide), if_neg (by rw [float_to_q88_neg_one]; decide)]
  · exact fun b hb => nomatch hb

/-- C4 witness: a disconnected exchange returns the plain failure with no
write performed. -/
theorem c4_witness :
    USBInterface.get_position stHumanDisc (boardBytes []) = (none, []) :=
  (c4_theorem stHumanDisc (boardBytes []) rfl).2.1

/-- C1 counterexample to the claim as stated: the echoed
`set_velocity 42.0` exchange succeeds but the facade's cached velocity is
not written (the facade's `set_velocity` never touches the cache), and the
value-less echo `set_velocity` yields success, not failure (the reply
falls through to `response is not None`). -/
theorem c1_counterexample :
    ACBv2.set_velocity stHuman (boardEcho "set_velocity 42.0") ACBv2.init 42 =
      (POut.ok true, ACBv2.init) ∧
    ACBv2.init.velocity = none ∧
    (ACBv2.set_velocity stHuman (boardEcho "set_velocity") ACBv2.init 42).1 =
      POut.ok true := by
  refine ⟨by decide, rfl, by decide⟩

/-- C1 (amended): in human-readable mode a `set_velocity` exchange echoed
as `set_velocity 42.0` returns success, an echo of just `set_velocity`
returns success as well, and the facade's cached state is unchanged in
every case. -/
theorem c1_theorem : ∀ (ifst : IfaceState) (board : Board) (st : ACBv2State)
    (v : ℚ),
    ifst.command_mode = CommandMode.HUMAN_READABLE →
    ifst.connected = true → ifst.serialConn = true →
    ((ACBv2.set_velocity ifst board st v).2 = st) ∧
    (board.humanReply ("set_velocity " ++ Py.pyFloatRepr v) =
        some "set_velocity 42.0" →
      (ACBv2.set_velocity ifst board st v).1 = POut.ok true) ∧
    (board.humanReply ("set_velocity " ++ Py.pyFloatRepr v) =
        some "set_velocity" →
      (ACBv2.set_velocity ifst board st v).1 = POut.ok true) := by
  intro ifst board st v hm hc hs
  rcases ifst with ⟨c, sc, m⟩
  simp only at hm hc hs
  subst hm; subst hc; subst hs
  refine ⟨rfl, ?_, ?_⟩
  · intro hb
    have e1 : Py.pyStrip "set_velocity 42.0" = "set_velocity 42.0" := by decide
    have e2 : Py.pyStartsWith "set_velocity 42.0" "set_velocity " = true := by
      decide
    have e3 : Py.splitOnceRest "set_velocity 42.0" = "42.0" := by decide
    have e4 : Py.pyFloatParse? "42.0" = some ⟨1, 42, 0, 1, 0⟩ := by decide
    have e5 : (("set_velocity 42.0" : String) = "") = False :=
      eq_false (by decide)
    simp [ACBv2.set_velocity, USBInterface.set_velocity,
      USBInterface.sendHumanCommand, hb, e1, e2, e3, e5, Py.pyFloat?, e4]
  · intro hb
    have e1 : Py.pyStrip "set_velocity" = "set_velocity" := by decide
    have e2 : Py.pyStartsWith "set_velocity" "set_velocity " = false := by
      decide
    simp [ACBv2.set_velocity, USBInterface.set_velocity,
      USBInterface.sendHumanCommand, hb, e1, e2]

/-- C1 witness: the amended statement at the concrete 42.0 exchange. -/
theorem c1_witness :
    (ACBv2.set_velocity stHuman (boardEcho "set_velocity 42.0") ACBv2.init
      42).1 = POut.ok true :=
  (c1_theorem stHuman (boardEcho "set_velocity 42.0") ACBv2.init 42
    rfl rfl rfl).2.1 rfl

/-- C7: `get_full_state` parses the literal 9-value reply into exactly the
expected record, and any reply with fewer than 10 whitespace-separated
fields (command token plus 9 values) fails with no partial record. -/
theorem c7_theorem : ∀ (st : IfaceState) (board : Board),
    st.command_mode = CommandMode.HUMAN_READABLE →
    st.connected = true → st.serialConn = true →
    (board.humanReply "get_full_state" =
        some "full_state 10.0 5.0 1.2 25.0 12.1 30.0 0.1 0.2 0.3\n" →
      (USBInterface.get_full_state st board).1 =
        some ⟨10, 5, 6 / 5, 25, 121 / 10, 30, 1 / 10, 1 / 5, 3 / 10⟩) ∧
    (∀ raw, board.humanReply "get_full_state" = some raw →
      (Py.pySplit (Py.pyStrip raw)).length < 10 →
      (USBInterface.get_full_state st board).1 = none) := by
  intro st board hm hc hs
  rcases st with ⟨c, sc, m⟩
  simp only at hm hc hs
  subst hm; subst hc; subst hs
  constructor
  · intro hb
    have e1 : Py.pyStrip "full_state 10.0 5.0 1.2 25.0 12.1 30.0 0.1 0.2 0.3\n"
        = "full_state 10.0 5.0 1.2 25.0 12.1 30.0 0.1 0.2 0.3" := by decide
    have e2 : Py.pyStartsWith "full_state 10.0 5.0 1.2 25.0 12.1 30.0 0.1 0.2 0.3"
        "full_state " = true := by decide
    have e3 : Py.pySplit "full_state 10.0 5.0 1.2 25.0 12.1 30.0 0.1 0.2 0.3" =
        ["full_state", "10.0", "5.0", "1.2", "25.0", "12.1", "30.0", "0.1",
          "0.2", "0.3"] := by decide
    have e5 : (("full_state 10.0 5.0 1.2 25.0 12.1 30.0 0.1 0.2 0.3" : String)
        = "") = False := eq_false (by decide)
    have p1 : Py.pyFloatParse? "10.0" = some ⟨1, 10, 0, 1, 0⟩ := by decide
    have p2 : Py.pyFloatParse? "5.0" = some ⟨1, 5, 0, 1, 0⟩ := by decide
    have p3 : Py.pyFloatParse? "1.2" = some ⟨1, 1, 2, 1, 0⟩ := by decide
    have p4 : Py.pyFloatParse? "25.0" = some ⟨1, 25, 0, 1, 0⟩ := by decide
    have p5 : Py.pyFloatParse? "12.1" = some ⟨1, 12, 1, 1, 0⟩ := by decide
    have p6 : Py.pyFloatParse? "30.0" = some ⟨1, 30, 0, 1, 0⟩ := by decide
    have p7 : Py.pyFloatParse? "0.1" = some ⟨1, 0, 1, 1, 0⟩ := by decide
    have p8 : Py.pyFloatParse? "0.2" = some ⟨1, 0, 2, 1, 0⟩ := by decide
    have p9 : Py.pyFloatParse? "0.3" = some ⟨1, 0, 3, 1, 0⟩ := by decide
    simp [USBInterface.get_full_state, USBInterface.sendHumanCommand, hb, e1,
      e2, e3, e5, Py.pyFloat?, p1, p2, p3, p4, p5, p6, p7, p8, p9]
    norm_num [Py.floatVal]
  · intro raw hb hlen
    simp only [USBInterface.get_full_state, USBInterface.sendHumanCommand,
      Bool.and_self, if_true, hb]
    split_ifs with h1 h2
    · omega
    · rfl
    · rfl

/-- C7 witness: the literal 9-value exchange at a concrete connected
client. -/
theorem c7_witness :
    (USBInterface.get_full_state stHuman
      (boardEcho "full_state 10.0 5.0 1.2 25.0 12.1 30.0 0.1 0.2 0.3\n")).1 =
      some ⟨10, 5, 6 / 5, 25, 121 / 10, 30, 1 / 10, 1 / 5, 3 / 10⟩ :=
  (c7_theorem stHuman
    (boardEcho "full_state 10.0 5.0 1.2 25.0 12.1 30.0 0.1 0.2 0.3\n")
    rfl rfl rfl).1 rfl

/-- C8 (amended): for position, velocity, torque, temperature, bus
voltage, internal temperature, the three PID triples and downsample, a
successful facade `get_X` returns the fresh value and overwrites exactly
the corresponding cached field, and a failed `get_X` signals failure with
the whole cache untouched; `get_pole_pairs` caches nothing (the facade has
no pole-pairs field), and `get_min_angle`/`get_max_angle` raise
`AttributeError` (the interface methods they call do not exist), leaving
the cache untouched. -/
theorem c8_theorem : ∀ (ifst : IfaceState) (board : Board) (st : ACBv2State),
    (∀ x, (USBInterface.get_position ifst board).1 = some x →
      ACBv2.get_position ifst board st =
        (some x, { st with position := some x })) ∧
    ((USBInterface.get_position ifst board).1 = none →
      ACBv2.get_position ifst board st = (none, st)) ∧
    (∀ x, (USBInterface.get_velocity ifst board).1 = some x →
      ACBv2.get_velocity ifst board st =
        (some x, { st with velocity := some x })) ∧
    ((USBInterface.get_velocity ifst board).1 = none →
      ACBv2.get_velocity ifst board st = (none, st)) ∧
    (∀ x, (USBInterface.get_torque ifst board).1 = some x →
      ACBv2.get_torque ifst board st =
        (some x, { st with torque := some x })) ∧
    ((USBInterface.get_torque ifst board).1 = none →
      ACBv2.get_torque ifst board st = (none, st)) ∧
    (∀ x, (USBInterface.get_temperature ifst board).1 = some x →
      ACBv2.get_temperature ifst board st =
        (some x, { st with temperature := some x })) ∧
    ((USBInterface.get_temperature ifst board).1 = none →
      ACBv2.get_temperature ifst board st = (none, st)) ∧
    (∀ x, (USBInterface.get_bus_voltage ifst board).1 = some x →
      ACBv2.get_bus_voltage ifst board st =
        (some x, { st with bus_voltage := some x })) ∧
    ((USBInterface.get_bus_voltage ifst board).1 = none →
      ACBv2.get_bus_voltage ifst board st = (none, st)) ∧
    (∀ x, (USBInterface.get_internal_temperature ifst board).1 = some x →
      ACBv2.get_internal_temperature ifst board st =
        (some x, { st with internal_temperature := some x })) ∧
    ((USBInterface.get_internal_temperature ifst board).1 = none →
      ACBv2.get_internal_temperature ifst board st = (none, st)) ∧
    (∀ x, (USBInterface.get_velocity_pid ifst board).1 = some x →
      ACBv2.get_velocity_pid ifst board st =
        (some x, { st with velocity_pid := some x })) ∧
    ((USBInterface.get_velocity_pid ifst board).1 = none →
      ACBv2.get_velocity_pid ifst board st = (none, st)) ∧
    (∀ x, (USBInterface.get_angle_pid ifst board).1 = some x →
      ACBv2.get_angle_pid ifst board st =
        (some x, { st with angle_pid := some x })) ∧
    ((USBInterface.get_angle_pid ifst board).1 = none →
      ACBv2.get_angle_pid ifst board st = (none, st)) ∧
    (∀ x, (USBInterface.get_current_pid ifst board).1 = some x →
      ACBv2.get_current_pid ifst board st =
        (some x, { st with current_pid := some x })) ∧
    ((USBInterface.get_current_pid ifst board).1 = none →
      ACBv2.get_current_pid ifst board st = (none, st)) ∧
    (∀ x, (USBInterface.get_downsample ifst board).1 = some x →
      ACBv2.get_downsample ifst board st =
        (some x, { st with downsample := some x })) ∧
    ((USBInterface.get_downsample ifst board).1 = none →
      ACBv2.get_downsample ifst board st = (none, st)) ∧
    (ACBv2.get_pole_pairs ifst board st =
      ((USBInterface.get_pole_pairs ifst board).1, st)) ∧
    (ACBv2.get_min_angle ifst board st = (POut.exn, st)) ∧
    (ACBv2.get_max_angle ifst board st = (POut.exn, st)) := by
  intro ifst board st
  refine ⟨?_, ?_, ?_, ?_, ?_, ?_, ?_, ?_, ?_, ?_, ?_, ?_, ?_, ?_, ?_, ?_, ?_,
    ?_, ?_, ?_, rfl, rfl, rfl⟩ <;>
  · intros
    simp [ACBv2.get_position, ACBv2.get_velocity, ACBv2.get_torque,
      ACBv2.get_temperature, ACBv2.get_bus_voltage,
      ACBv2.get_internal_temperature, ACBv2.get_velocity_pid,
      ACBv2.get_angle_pid, ACBv2.get_current_pid, ACBv2.get_downsample, *]

/-- C8 counterexample to the claim as stated: a successful
`get_pole_pairs` (fresh value 7) leaves the facade state exactly the
all-empty initial state — there is no pole-pairs cache field to overwrite —
and `get_min_angle` raises instead of signalling failure. -/
theorem c8_counterexample :
    ACBv2.get_pole_pairs stHuman (boardEcho "get_pole_pairs 7") ACBv2.init =
      (some 7, ACBv2.init) ∧
    ACBv2.get_min_angle stHuman (boardEcho "get_pole_pairs 7") ACBv2.init =
      (POut.exn, ACBv2.init) := by
  exact ⟨by decide, rfl⟩

/-- C8 witness: a successful `get_downsample` overwrites exactly its cache
field. -/
theorem c8_witness :
    ACBv2.get_downsample stHuman (boardEcho "get_downsample 4") ACBv2.init =
      (some 4, { ACBv2.init with downsample := some 4 }) :=
  (c8_theorem stHuman (boardEcho "get_downsample 4")
    ACBv2.init).2.2.2.2.2.2.2.2.2.2.2.2.2.2.2.2.2.2.1 4 (by decide)

/-- C10: the legacy `ActuatorInterface` and the current `USBInterface`
agree, as functions of the connection state, board oracle and arguments,
on both Q8.8 codecs and on all ten shared operations. -/
theorem c10_theorem :
    USBInterface.float_to_q88 = ActuatorInterface.float_to_q88 ∧
    USBInterface.q88_to_float = ActuatorInterface.q88_to_float ∧
    USBInterface.set_position = ActuatorInterface.set_position ∧
    USBInterface.set_velocity = ActuatorInterface.set_velocity ∧
    USBInterface.set_torque = ActuatorInterface.set_torque ∧
    USBInterface.get_position = ActuatorInterface.get_position ∧
    USBInterface.get_velocity = ActuatorInterface.get_velocity ∧
    USBInterface.get_torque = ActuatorInterface.get_torque ∧
    USBInterface.enable = ActuatorInterface.enable ∧
    USBInterface.disable = ActuatorInterface.disable ∧
    USBInterface.home = ActuatorInterface.home ∧
    USBInterface.stop = ActuatorInterface.stop :=
  ⟨rfl, rfl, rfl, rfl, rfl, rfl, rfl, rfl, rfl, rfl, rfl, rfl⟩
